import Mathlib

/-!
Shallow embedding of the wemap-sdk-js example pages (TypeScript) into Lean.

Each example page is a standalone script holding mutable page-local state and
a set of event handlers that call into an external SDK.  We embed each page as
a state record plus pure handler functions.  An asynchronous SDK call that can
throw is embedded by passing the call's outcome (`Except String _`, the error
message string as the catch block computes it) as an argument to the handler;
the handler being a total Lean function returning the new state captures the
fact that the surrounding try/catch swallows the exception and never rethrows.
Observable side channels (browser alerts, SDK invocations made by a handler)
are returned in an `Effects` record.  JavaScript numbers are modelled as exact
rationals; decimal literals of the source are taken at face value.
-/

namespace Wemap

/-- Geographic coordinate as built by the routing package's `Coordinates`
class: `new Coordinates(lat, lon)` leaves altitude and level unset. -/
structure Coordinates where
  latitude : ℚ
  longitude : ℚ
  altitude : Option ℚ
  level : Option ℤ
  deriving DecidableEq, Repr

/-- The two-argument `Coordinates` constructor used throughout the pages. -/
def Coordinates.mk2 (lat lon : ℚ) : Coordinates :=
  ⟨lat, lon, none, none⟩

/-- One leg of an itinerary (instruction, distance, duration may be absent). -/
structure Leg where
  instruction : Option String
  distance : Option ℚ
  duration : Option ℚ
  deriving DecidableEq, Repr

/-- An itinerary as consumed by the pages: ordered coordinates, endpoints,
travel mode, reported distance (metres) and duration (seconds), and legs.
Distance and duration are optional because the TS `Itinerary` type leaves
them optional and the pages guard on their truthiness. -/
structure Itinerary where
  coords : List Coordinates
  origin : Coordinates
  destination : Coordinates
  mode : String
  distance : Option ℚ
  duration : Option ℚ
  legs : List Leg
  deriving DecidableEq, Repr

/-- The SDK's `Itinerary.fromOrderedCoordinates` builder is external to this
repository; the pages only rely on it recording the coordinate list, the two
endpoints and the mode, so we embed it as that record constructor (distance,
duration and legs are computed inside the SDK and are left unset here). -/
def Itinerary.fromOrderedCoordinates (coords : List Coordinates)
    (origin destination : Coordinates) (mode : String) : Itinerary :=
  ⟨coords, origin, destination, mode, none, none, []⟩

/-- A position inside a pose, with `latitude`/`longitude` present (the pages
test `'latitude' in position` before using one). -/
structure Position where
  latitude : ℚ
  longitude : ℚ
  level : Option ℤ
  deriving DecidableEq, Repr

/-- A pose delivered by a location-source `onUpdate` callback.  The initial
page state is the empty pose `{}`, i.e. no position yet. -/
structure Pose where
  position : Option Position
  deriving DecidableEq, Repr

/-- The empty pose `{}` that every page starts from. -/
def Pose.empty : Pose := ⟨none⟩

/-- Outcome of an awaited SDK call that resolves to no useful value: either
it resolved, or it threw and the catch block turned the exception into the
string `error instanceof Error ? error.message : String(error)`. -/
abbrev SdkResult := Except String Unit

/-- Observable effects a handler produces besides the state update: browser
alerts shown, route-calculation requests issued to the SDK router, and
`setDestination` invocations. -/
structure Effects where
  alerts : List String
  routeRequests : List ((ℚ × ℚ) × (ℚ × ℚ))
  setDestinationCalls : List (ℚ × ℚ × Option ℤ)
  deriving DecidableEq, Repr

/-- A handler run that produced no observable effect. -/
def noEffects : Effects := ⟨[], [], []⟩

/-- JavaScript's `Math.round`: round half toward positive infinity. -/
def jsRound (q : ℚ) : ℤ := (q + 1/2).floor

/-- JavaScript's `x.toFixed(2)` on the nonnegative values the pages format:
round to the nearest hundredth, half up. -/
def toFixed2 (q : ℚ) : ℚ := (jsRound (q * 100) : ℚ) / 100

end Wemap

namespace Wemap.GnssPage

/-!
Embedding of `src/gnss-location-source.ts`: the GnssWifiLocationSource page.
-/

/-- Page-local mutable state of the GNSS page. -/
structure State where
  gnssPose : Pose
  gnssUpdateCount : ℕ
  gnssRunning : Bool
  gnssError : Option String
  deriving DecidableEq, Repr

/-- Initial page state (`gnssPose = {}`, counters zero, stopped, no error). -/
def init : State := ⟨Pose.empty, 0, false, none⟩

/-- What `updateUI` derives from the state: the status span text, the inline
error text (rendered iff `gnssError` is set), and the `disabled` attribute of
the two buttons. -/
structure Display where
  statusText : String
  errorText : Option String
  startDisabled : Bool
  stopDisabled : Bool
  deriving DecidableEq, Repr

/-- The `updateUI` render of `src/gnss-location-source.ts` (lines 140-167):
status is `● Running`/`○ Stopped` from `gnssRunning`, the error span is shown
iff `gnssError` is set, start is disabled while running and stop while not. -/
def updateUI (s : State) : Display :=
  { statusText := if s.gnssRunning then "● Running" else "○ Stopped"
    errorText := s.gnssError
    startDisabled := s.gnssRunning
    stopDisabled := !s.gnssRunning }

/-- The `onUpdate` listener: overwrite the pose wholesale and bump the count. -/
def onUpdate (s : State) (p : Pose) : State :=
  { s with gnssPose := p, gnssUpdateCount := s.gnssUpdateCount + 1 }

/-- Handler `handleStartGnss` (lines 200-213): on success set running and
clear the error; on failure store the message, re-render, and alert. -/
def handleStartGnss (s : State) (r : SdkResult) : State × Effects :=
  match r with
  | .ok _ => ({ s with gnssRunning := true, gnssError := none }, noEffects)
  | .error e =>
      ({ s with gnssError := some e },
       { noEffects with
           alerts := ["Failed to start GnssWifiLocationSource: " ++ e] })

/-- Handler `handleStopGnss` (lines 216-228): on success clear running and
the error; on failure store the message and re-render.  The catch block logs
to the console but, unlike the start handler, shows no alert. -/
def handleStopGnss (s : State) (r : SdkResult) : State × Effects :=
  match r with
  | .ok _ => ({ s with gnssRunning := false, gnssError := none }, noEffects)
  | .error e => ({ s with gnssError := some e }, noEffects)

end Wemap.GnssPage

namespace Wemap.RoutingPage

/-!
Embedding of the Routing example page (`src/routing.ts`, first document):
Router initialization, route calculation, itinerary rendering, navigation
info, the MapLibre route layer, and the clear handler.
-/

/-- The slice of the MapLibre map the page manipulates: whether `load` has
fired, and the ids of the sources and layers currently added. -/
structure MapW where
  loaded : Bool
  sources : List String
  layers : List String
  deriving DecidableEq, Repr

/-- Navigation info as returned by the SDK's `ItineraryInfoManager.getInfo`;
the page treats it as an opaque value to render, so only the fields the
rendering reads are kept. -/
structure NavInfo where
  traveledDistance : ℚ
  remainingDistance : ℚ
  traveledPercentage : ℚ
  remainingPercentage : ℚ
  deriving DecidableEq, Repr

/-- Page-local mutable state of the routing page: the module-level `let`
variables of `src/routing.ts`.  Markers are tracked only as present/absent.
`itineraryInfoManager` holds the itinerary assigned to the manager. -/
structure State where
  router : Bool
  currentItinerary : Option Itinerary
  routeError : Option String
  isCalculating : Bool
  navigationInfo : Option NavInfo
  testPosition : Option (ℚ × ℚ)
  itineraryInfoManager : Option Itinerary
  originPosition : Option (ℚ × ℚ)
  destinationPosition : Option (ℚ × ℚ)
  map : Option MapW
  routeSourceId : Option String
  originMarker : Bool
  destinationMarker : Bool
  testPositionMarker : Bool
  deriving DecidableEq, Repr

/-- Initial page state: all module-level variables `null`/`false`. -/
def init : State :=
  ⟨false, none, none, false, none, none, none, none, none, none, none,
   false, false, false⟩

/-- The type of the external `ItineraryInfoManager.getInfo` collaborator:
given the manager's itinerary and a user position it returns navigation info,
or `none` when it throws (the page's catch turns a throw into `null`). -/
abbrev GetInfo := Itinerary → ℚ × ℚ → Option NavInfo

/-- The `updateMapTestPosition` function (lines 401-419): a marker is kept on
the map exactly when the map is loaded and a test position is set. -/
def updateMapTestPosition (s : State) : State :=
  match s.map, s.testPosition with
  | some m, some _ =>
      if m.loaded then { s with testPositionMarker := true }
      else { s with testPositionMarker := false }
  | _, _ => { s with testPositionMarker := false }

/-- The `updateNavigationInfo` function (lines 114-131): requires the manager,
a test position and a current itinerary, then queries the external
`getInfo`; otherwise (or when `getInfo` throws) `navigationInfo` is nulled. -/
def updateNavigationInfo (gi : GetInfo) (s : State) : State :=
  match s.itineraryInfoManager, s.testPosition, s.currentItinerary with
  | some mgrIt, some tp, some _ =>
      updateMapTestPosition { s with navigationInfo := gi mgrIt tp }
  | _, _, _ => updateMapTestPosition { s with navigationInfo := none }

/-- Remove the route layer and the source `rid` from the map the way the page
does it: drop the `route` layer if present, then the source. -/
def MapW.removeRoute (m : MapW) (rid : String) : MapW :=
  let m1 := if m.layers.contains "route" then
      { m with layers := m.layers.erase "route" } else m
  { m1 with sources := m1.sources.erase rid }

/-- The `updateMapRoute` function (lines 269-366).  Without a loaded map and a
current itinerary it removes the existing route source/layer (when one is
registered and present) and nulls `routeSourceId`; otherwise, for a nonempty
coordinate list, it removes any existing route, adds the `route-source` source
and the `route` layer, records the id, and places both endpoint markers. -/
def updateMapRoute (s : State) : State :=
  match s.map with
  | none => s
  | some m =>
    if ¬ m.loaded ∨ s.currentItinerary.isNone then
      match s.routeSourceId with
      | some rid =>
          if m.sources.contains rid then
            { s with map := some (m.removeRoute rid), routeSourceId := none }
          else s
      | none => s
    else
      match s.currentItinerary with
      | none => s
      | some it =>
        if it.coords = [] then s
        else
          let m1 := match s.routeSourceId with
            | some rid =>
                if m.sources.contains rid then m.removeRoute rid else m
            | none => m
          let m2 := { m1 with
              sources := "route-source" :: m1.sources,
              layers := "route" :: m1.layers }
          { s with map := some m2, routeSourceId := some "route-source",
                   originMarker := true, destinationMarker := true }

/-- The phase of `calculateRoute` (lines 71-111) that runs before the awaited
`router.directions` call: bail out with an error message if the router is not
initialized, otherwise set the calculating flag and clear the old error. -/
def calcStart (s : State) : State :=
  if ¬ s.router then { s with routeError := some "Router not initialized" }
  else { s with isCalculating := true, routeError := none }

/-- The phase of `calculateRoute` after `router.directions` settles: on
success store `itineraries[0]` as the current itinerary, hand it to a fresh
`ItineraryInfoManager`, refresh navigation info when a test position is set,
and redraw the route; on failure store the message.  Either way the `finally`
block clears the calculating flag. -/
def calcFinish (gi : GetInfo) (s : State)
    (r : Except String (List Itinerary)) : State :=
  match r with
  | .ok its =>
      let s1 := { s with currentItinerary := its.head?,
                         itineraryInfoManager := its.head? }
      let s2 := if s1.testPosition.isSome then updateNavigationInfo gi s1
                else s1
      { updateMapRoute s2 with isCalculating := false }
  | .error e => { s with routeError := some e, isCalculating := false }

/-- The whole `calculateRoute(from, to)` call with the SDK outcome `r`.  When
the router is missing the SDK is never reached; otherwise the one directions
request is recorded as an effect.  The catch path shows no alert on this
page. -/
def calculateRoute (gi : GetInfo) (s : State) (fromP toP : ℚ × ℚ)
    (r : Except String (List Itinerary)) : State × Effects :=
  if ¬ s.router then (calcStart s, noEffects)
  else (calcFinish gi (calcStart s) r,
        { noEffects with routeRequests := [(fromP, toP)] })

/-- Handler `handleSetTestPosition` with already-parsed inputs: a valid pair
stores the test position and refreshes navigation info. -/
def handleSetTestPosition (gi : GetInfo) (s : State) (p : ℚ × ℚ) : State :=
  updateNavigationInfo gi { s with testPosition := some p }

/-- Handler `handleClearRoute` (lines 607-633): null out every piece of
route/navigation state and all markers, then re-render and refresh the map
route and test-position marker. -/
def handleClearRoute (s : State) : State :=
  let s1 := { s with currentItinerary := none, testPosition := none,
                     navigationInfo := none, routeError := none,
                     originPosition := none, destinationPosition := none,
                     itineraryInfoManager := none,
                     originMarker := false, destinationMarker := false,
                     testPositionMarker := false }
  updateMapTestPosition (updateMapRoute s1)

/-- Distance text of the route information block: either `N/A` or a value
rendered with the unit `km`. -/
inductive DistText
  | na
  | km (q : ℚ)
  deriving DecidableEq, Repr

/-- Duration text of the route information block: either `N/A` or a whole
number of minutes rendered with the unit `min`. -/
inductive DurText
  | na
  | min (z : ℤ)
  deriving DecidableEq, Repr

/-- The data rendered by `renderItineraryInfo` for an itinerary. -/
structure ItinInfoView where
  distanceText : DistText
  durationText : DurText
  legsCount : ℕ
  deriving DecidableEq, Repr

/-- Result of `renderItineraryInfo`: the placeholder paragraph or the route
information block. -/
inductive ItinDisplay
  | noItinerary
  | info (v : ItinInfoView)
  deriving DecidableEq, Repr

/-- The `renderItineraryInfo` function (lines 422-444), applied to the
`currentItinerary` it reads: with no itinerary it returns the placeholder;
otherwise distance is `(distance / 1000).toFixed(2)` km and duration is
`Math.round(duration / 60)` min — but only when the stored value is truthy
(present and nonzero); a falsy value renders `N/A`. -/
def renderItineraryInfo (it : Option Itinerary) : ItinDisplay :=
  match it with
  | none => .noItinerary
  | some it =>
      .info
        { distanceText :=
            match it.distance with
            | some d => if d = 0 then .na else .km (toFixed2 (d / 1000))
            | none => .na
          durationText :=
            match it.duration with
            | some t => if t = 0 then .na else .min (jsRound (t / 60))
            | none => .na
          legsCount := it.legs.length }

/-- Result of `renderNavigationInfo` (lines 472-512): the placeholder
paragraph when no navigation info is held, else the info block. -/
inductive NavDisplay
  | placeholder
  | info (n : NavInfo)
  deriving DecidableEq, Repr

/-- The `renderNavigationInfo` function: placeholder iff `navigationInfo` is
null. -/
def renderNavigationInfo (s : State) : NavDisplay :=
  match s.navigationInfo with
  | none => .placeholder
  | some n => .info n

/-- What `updateUI` (lines 522-599) derives from the state. -/
structure Display where
  routerStatusText : String
  errorText : Option String
  calculateDisabled : Bool
  calculateText : String
  clearDisabled : Bool
  itineraryBlock : ItinDisplay
  navigationBlock : NavDisplay
  deriving DecidableEq, Repr

/-- The `updateUI` render of the routing page: the inline route error is
shown iff `routeError` is set; the calculate button is disabled without a
router, while calculating, or without both endpoints; clear is disabled
without an itinerary. -/
def updateUI (s : State) : Display :=
  { routerStatusText := if s.router then "● Initialized"
                        else "○ Not Initialized"
    errorText := s.routeError
    calculateDisabled := !s.router || s.isCalculating ||
      s.originPosition.isNone || s.destinationPosition.isNone
    calculateText := if s.isCalculating then "Calculating..."
                     else "Calculate Route"
    clearDisabled := s.currentItinerary.isNone
    itineraryBlock := renderItineraryInfo s.currentItinerary
    navigationBlock := renderNavigationInfo s }

/-- Events of the routing page, from the event loop's point of view: the
synchronous prefix of a route calculation, the settling of its awaited
directions call, and the user-triggered handlers. -/
inductive Event
  | calcBegin (fromP toP : ℚ × ℚ)
  | calcDone (r : Except String (List Itinerary))
  | clearRoute
  | setTestPosition (p : ℚ × ℚ)
  | mapSetOrigin (p : ℚ × ℚ)
  | mapSetDestination (p : ℚ × ℚ)

/-- One event-loop step of the routing page.  Map-click origin/destination
selection stores the position and places the marker; the automatic route
calculation it may trigger appears as a separate `calcBegin` in the trace. -/
def step (gi : GetInfo) (s : State) : Event → State
  | .calcBegin _ _ => calcStart s
  | .calcDone r => calcFinish gi s r
  | .clearRoute => handleClearRoute s
  | .setTestPosition p => handleSetTestPosition gi s p
  | .mapSetOrigin p => { s with originPosition := some p,
                                originMarker := true }
  | .mapSetDestination p => { s with destinationPosition := some p,
                                     destinationMarker := true }

/-- Run a list of events from a state. -/
def run (gi : GetInfo) (s : State) (es : List Event) : State :=
  es.foldl (step gi) s

end Wemap.RoutingPage

namespace Wemap.RoutingFormPage

/-!
Embedding of the second routing example document in `src/routing.ts` (the
`@wemap-sdk` variant), whose route form is submitted through
`handleCalculateRoute` with four coordinate inputs parsed by `parseFloat`.
-/

/-- Page state touched by the form path of this page. -/
structure State where
  router : Bool
  currentItinerary : Option Itinerary
  routeError : Option String
  isCalculating : Bool
  testPosition : Option (ℚ × ℚ)
  deriving DecidableEq, Repr

/-- Initial state of the form page. -/
def init : State := ⟨false, none, none, false, none⟩

/-- The `calculateRoute` of this page variant (without the info manager):
the guard, the directions call outcome, and the `finally` flag reset. -/
def calculateRoute (s : State) (fromP toP : ℚ × ℚ)
    (r : Except String (List Itinerary)) : State × Effects :=
  if ¬ s.router then
    ({ s with routeError := some "Router not initialized" }, noEffects)
  else
    match r with
    | .ok its =>
        ({ s with isCalculating := false, routeError := none,
                  currentItinerary := its.head? },
         { noEffects with routeRequests := [(fromP, toP)] })
    | .error e =>
        ({ s with isCalculating := false, routeError := some e },
         { noEffects with routeRequests := [(fromP, toP)] })

/-- Handler `handleCalculateRoute` (lines 1220-1244 of `src/routing.ts`).
Each input value has been read and fed to `parseFloat`; a value on which
`parseFloat` returns `NaN` is embedded as `none`.  If any of the four is
`NaN` the handler alerts `Please enter valid coordinates` and returns without
touching the state or the SDK; otherwise it runs `calculateRoute` with the
parsed pair, whose awaited outcome is `r`. -/
def handleCalculateRoute (s : State)
    (fromLat fromLon toLat toLon : Option ℚ)
    (r : Except String (List Itinerary)) : State × Effects :=
  match fromLat, fromLon, toLat, toLon with
  | some fa, some fo, some ta, some tb =>
      calculateRoute s (fa, fo) (ta, tb) r
  | _, _, _, _ =>
      (s, { noEffects with alerts := ["Please enter valid coordinates"] })

end Wemap.RoutingFormPage

namespace Wemap.MapMatchingPage

/-!
Embedding of `src/map-matching.ts`: the GnssWifiLocationSource plus
MapMatching page, including the fabricated demo itinerary.
-/

/-- Page-local state of the map-matching page, together with the itinerary
registered in the SDK's `MapMatching` singleton (`mapMatchingItinerary`). -/
structure State where
  gnssPose : Pose
  gnssUpdateCount : ℕ
  gnssRunning : Bool
  gnssError : Option String
  currentItinerary : Option Itinerary
  mapMatchingItinerary : Option Itinerary
  itineraryInfo : String
  deriving DecidableEq, Repr

/-- Initial page state: empty pose, stopped source, no itinerary anywhere. -/
def init : State :=
  ⟨Pose.empty, 0, false, none, none, none, "No itinerary set"⟩

/-- The `onUpdate` listener (lines 60-65): overwrite the pose wholesale and
bump the update count. -/
def onUpdate (s : State) (p : Pose) : State :=
  { s with gnssPose := p, gnssUpdateCount := s.gnssUpdateCount + 1 }

/-- Handler `handleStartGNSS`: on success mark running and clear the error;
on failure store the message and alert. -/
def handleStartGNSS (s : State) (r : SdkResult) : State × Effects :=
  match r with
  | .ok _ => ({ s with gnssRunning := true, gnssError := none }, noEffects)
  | .error e =>
      ({ s with gnssError := some e },
       { noEffects with
           alerts := ["Failed to start GnssWifiLocationSource: " ++ e] })

/-- Handler `handleStopGNSS`: on success mark stopped and clear the error;
on failure store the message (no alert on the stop path). -/
def handleStopGNSS (s : State) (r : SdkResult) : State × Effects :=
  match r with
  | .ok _ => ({ s with gnssRunning := false, gnssError := none }, noEffects)
  | .error e => ({ s with gnssError := some e }, noEffects)

/-- The `createAndSetItinerary(from, to)` function (lines 150-190): build the
origin, the destination and three intermediate points around the midpoint,
create the itinerary from the ordered five coordinates with mode `WALK`,
store it as current, register it with `MapMatching.setItinerary`, and record
the summary line. -/
def createAndSetItinerary (s : State) (fromP toP : ℚ × ℚ) : State :=
  let origin := Coordinates.mk2 fromP.1 fromP.2
  let destination := Coordinates.mk2 toP.1 toP.2
  let midLat := (fromP.1 + toP.1) / 2
  let midLon := (fromP.2 + toP.2) / 2
  let coords := [origin,
                 Coordinates.mk2 (midLat + 1/1000) (midLon + 1/1000),
                 Coordinates.mk2 midLat midLon,
                 Coordinates.mk2 (midLat - 1/1000) (midLon - 1/1000),
                 destination]
  let it := Itinerary.fromOrderedCoordinates coords origin destination "WALK"
  { s with currentItinerary := some it, mapMatchingItinerary := some it,
           itineraryInfo := "Distance: N/A, Duration: N/A, Legs: 0" }

/-- The `createItineraryFromCurrentPosition` function (lines 126-147).
Without a position it alerts and changes nothing.  With a position it offsets
the destination by `0.0045` degrees of latitude and by
`0.0045 / Math.cos(currentLat * Math.PI / 180)` degrees of longitude;
`cosLat` stands for the value the JS math library returns for that cosine,
passed in because the transcendental is evaluated outside the page. -/
def createItineraryFromCurrentPosition (cosLat : ℚ) (s : State) :
    State × Effects :=
  match s.gnssPose.position with
  | none =>
      (s, { noEffects with alerts :=
        ["No GPS position available yet. Please start the GNSS source and wait for a position update."] })
  | some p =>
      let offsetLat : ℚ := 45/10000
      let offsetLon : ℚ := (45/10000) / cosLat
      (createAndSetItinerary s (p.latitude, p.longitude)
        (p.latitude + offsetLat, p.longitude + offsetLon), noEffects)

/-- Handler `handleClearItinerary` (lines 602-609): clear the map-matching
itinerary, the page's current itinerary and the summary line. -/
def handleClearItinerary (s : State) : State :=
  { s with mapMatchingItinerary := none, currentItinerary := none,
           itineraryInfo := "No itinerary set" }

/-- Operations on the map-matching page as they arrive at the event loop. -/
inductive Op
  | poseUpdate (p : Pose)
  | startResult (r : SdkResult)
  | stopResult (r : SdkResult)
  | setRouteFromPosition (cosLat : ℚ)
  | clearItinerary

/-- One event-loop step of the map-matching page. -/
def step (s : State) : Op → State
  | .poseUpdate p => onUpdate s p
  | .startResult r => (handleStartGNSS s r).1
  | .stopResult r => (handleStopGNSS s r).1
  | .setRouteFromPosition c => (createItineraryFromCurrentPosition c s).1
  | .clearItinerary => handleClearItinerary s

/-- Run a list of operations from a state. -/
def run (s : State) (ops : List Op) : State :=
  ops.foldl step s

end Wemap.MapMatchingPage

namespace Wemap.VpsPage

/-!
Embedding of `src/vps-location-source.ts`: the VPSLocationSource page with
its camera-backed scan.  `scanPending` records that a `startScan()` promise
obtained in `handleStartVPSScan` has not settled yet.
-/

/-- Page-local state of the VPS page (camera tracked as present/absent). -/
structure State where
  isScanning : Bool
  scanPending : Bool
  vpsError : Option String
  camera : Bool
  deriving DecidableEq, Repr

/-- Initial page state. -/
def init : State := ⟨false, false, none, false⟩

/-- Events of the scan lifecycle: the synchronous prefix of
`handleStartVPSScan` (camera setup, `startScan()` issued, flags set), the
settling of that scan promise with its boolean result, and the user's
`handleStopVPSScan` with the outcome of the awaited `stopScan()`. -/
inductive Event
  | startScanBegin
  | scanDone (success : Bool)
  | stopScan (r : SdkResult)

/-- One event-loop step of the VPS page.

`startScanBegin` is `handleStartVPSScan` (lines 246-279) up to the first
await of the scan promise: the camera is set up, `startScan()` is called
(leaving a pending promise), `isScanning` is set and the error cleared.

`scanDone success` is the rest of that handler once the promise resolves:
`isScanning` is cleared; a `false` result is thrown and caught, storing the
error message; a `true` result stops the camera.

`stopScan r` is `handleStopVPSScan` (lines 281-300): the camera is stopped,
then `stopScan()` is awaited; on success `isScanning` is cleared along with
the error, on failure the message is stored.  Note the handler runs and
mutates the page state regardless of a still-pending scan promise. -/
def step (s : State) : Event → State
  | .startScanBegin =>
      { s with camera := true, scanPending := true, isScanning := true,
               vpsError := none }
  | .scanDone success =>
      if success then
        { s with isScanning := false, scanPending := false, camera := false }
      else
        { s with isScanning := false, scanPending := false,
                 vpsError := some "Failed to start VPSLocationSource scan" }
  | .stopScan r =>
      match r with
      | .ok _ => { s with camera := false, isScanning := false,
                          vpsError := none }
      | .error e => { s with camera := false, vpsError := some e }

/-- Run a list of events from a state. -/
def run (s : State) (es : List Event) : State :=
  es.foldl step s

end Wemap.VpsPage

namespace Wemap.CombinedGnssPage

/-!
Embedding of `src/combined-gnss.ts`: the combined GNSS + router +
map-matching page, in particular its map-click destination selection.
-/

/-- Destination as stored by `setDestination`. -/
structure DestCoords where
  lat : ℚ
  lon : ℚ
  level : Option ℤ
  deriving DecidableEq, Repr

/-- Page-local state touched by the map-click path.  `mapLoaded` is
`map.loaded()` at the time of the click (the click handler exists as soon as
the map object does, before `load` fires). -/
structure State where
  mapLoaded : Bool
  gnssRunning : Bool
  gnssPose : Pose
  destinationCoords : Option DestCoords
  destinationMarker : Bool
  deriving DecidableEq, Repr

/-- Initial page state. -/
def init : State := ⟨false, false, Pose.empty, none, false⟩

/-- The `setDestination(lat, lon, level)` function (lines 163-185): store the
coordinates, replace the destination marker, and record the call. -/
def setDestination (s : State) (lat lon : ℚ) (level : Option ℤ) :
    State × Effects :=
  ({ s with destinationCoords := some ⟨lat, lon, level⟩,
            destinationMarker := true },
   { noEffects with setDestinationCalls := [(lat, lon, level)] })

/-- The map `click` handler (lines 127-153).  An unloaded map logs a warning
and returns silently.  Without a running source it alerts; without a pose
position it alerts; otherwise it calls `setDestination` with the clicked
point and the parsed level input (`none` embeds an empty or `NaN` input). -/
def mapClick (s : State) (lng lat : ℚ) (levelVal : Option ℤ) :
    State × Effects :=
  if ¬ s.mapLoaded then (s, noEffects)
  else if ¬ s.gnssRunning then
    (s, { noEffects with alerts := ["Please start GNSS Location Source first"] })
  else
    match s.gnssPose.position with
    | none =>
        (s, { noEffects with alerts :=
          ["Waiting for GNSS position. Please wait for location to be acquired."] })
    | some _ => setDestination s lat lng levelVal

end Wemap.CombinedGnssPage

namespace Wemap.RoutingFormPage

/-- What the form page's `updateUI` derives from the modelled slice. -/
structure Display where
  statusText : String
  errorText : Option String
  calculateText : String
  clearDisabled : Bool
  deriving DecidableEq, Repr

/-- The `updateUI` render of the second routing document restricted to the
modelled slice: the inline route error block is rendered iff `routeError` is
set. -/
def updateUI (s : State) : Display :=
  { statusText := if s.router then "● Initialized" else "○ Not Initialized"
    errorText := s.routeError
    calculateText := if s.isCalculating then "Calculating..."
                     else "Calculate Route"
    clearDisabled := s.currentItinerary.isNone }

end Wemap.RoutingFormPage

namespace Wemap.VpsPage

/-- What `updateUI` (lines 121-212) derives from the modelled state: the scan
status span and the inline error display (shown iff `vpsError` is set; the
source running status is read back from the SDK object, not page state). -/
structure Display where
  scanStatusText : String
  errorText : Option String
  deriving DecidableEq, Repr

/-- The `updateUI` render of `src/vps-location-source.ts` restricted to the
modelled state slice. -/
def updateUI (s : State) : Display :=
  { scanStatusText := if s.isScanning then "● Running" else "○ Stopped"
    errorText := s.vpsError }

/-- Handler `handleStartVPS` (lines 215-228): success clears the error;
failure stores the message, re-renders, and alerts. -/
def handleStartVPS (s : State) (r : SdkResult) : State × Effects :=
  match r with
  | .ok _ => ({ s with vpsError := none }, noEffects)
  | .error e =>
      ({ s with vpsError := some e },
       { noEffects with
           alerts := ["Failed to start VPSLocationSource: " ++ e] })

/-- Handler `handleStopVPS` (lines 231-244): success clears the error;
failure stores the message and re-renders — its catch shows no alert. -/
def handleStopVPS (s : State) (r : SdkResult) : State × Effects :=
  match r with
  | .ok _ => ({ s with vpsError := none }, noEffects)
  | .error e => ({ s with vpsError := some e }, noEffects)

/-- The catch block of `handleStartVPSScan` (lines 273-278), reached when
any awaited step of its try block throws: the message is stored,
re-rendered, and alerted (the scanning flag is left as the try block left
it).  The non-throwing scan lifecycle is modelled by `step`. -/
def handleStartVPSScanError (s : State) (e : String) : State × Effects :=
  ({ s with vpsError := some e },
   { noEffects with
       alerts := ["Failed to start VPSLocationSource scan: " ++ e] })

/-- Handler `handleStopVPSScan` (lines 281-300) with the outcome of the
awaited `stopScan()`: the camera is stopped first; success clears the
scanning flag and the error, failure stores the message, re-renders, and
alerts.  The state update coincides with the `stopScan` case of `step`;
this version also records the alert effect. -/
def handleStopVPSScan (s : State) (r : SdkResult) : State × Effects :=
  match r with
  | .ok _ =>
      ({ s with camera := false, isScanning := false, vpsError := none },
       noEffects)
  | .error e =>
      ({ s with camera := false, vpsError := some e },
       { noEffects with
           alerts := ["Failed to stop VPSLocationSource scan: " ++ e] })

end Wemap.VpsPage

namespace Wemap.MapMatchingPage

/-- What `updateUI` (lines 435-563) derives from the modelled state: the
map-matching status (read back via `MapMatching.getItinerary()`), the GNSS
status span, and the inline error display (shown iff `gnssError` is set). -/
structure Display where
  statusText : String
  gnssStatusText : String
  errorText : Option String
  deriving DecidableEq, Repr

/-- The `updateUI` render of `src/map-matching.ts` restricted to the
modelled state slice. -/
def updateUI (s : State) : Display :=
  { statusText := if s.mapMatchingItinerary.isSome then "● Active"
                  else "○ Inactive"
    gnssStatusText := if s.gnssRunning then "● Running" else "○ Stopped"
    errorText := s.gnssError }

/-- The try/catch wrapper of `createAndSetItinerary` (lines 150-190).  Its
whole body sits in one try block whose first SDK call is the itinerary
builder; `r` is that call's outcome.  When it throws, the catch block only
console-logs and alerts: nothing is stored in page state and nothing is
rendered inline. -/
def createAndSetItineraryTry (s : State) (fromP toP : ℚ × ℚ)
    (r : SdkResult) : State × Effects :=
  match r with
  | .ok _ => (createAndSetItinerary s fromP toP, noEffects)
  | .error e =>
      (s, { noEffects with alerts := ["Failed to create itinerary: " ++ e] })

end Wemap.MapMatchingPage

namespace Wemap.MapMatchingVpsPage

/-!
Embedding of the MapMatching-with-VPS example page (the `map-matching-vps`
entry of the build configuration): the slice relevant to its scan-stop
handler and its unprotected itinerary creation.
-/

/-- Page-local state slice of the map-matching VPS page (the summary line
`itineraryInfo`, derived from the built itinerary, is left out of the
slice). -/
structure State where
  vpsPose : Pose
  isScanning : Bool
  vpsError : Option String
  currentItinerary : Option Itinerary
  mapMatchingItinerary : Option Itinerary
  deriving DecidableEq, Repr

/-- Initial page state. -/
def init : State := ⟨Pose.empty, false, none, none, none⟩

/-- What this page's `updateUI` derives from the modelled slice: the scan
status span and the inline error display (shown iff `vpsError` is set). -/
structure Display where
  scanStatusText : String
  errorText : Option String
  deriving DecidableEq, Repr

/-- The `updateUI` render of the page restricted to the modelled slice. -/
def updateUI (s : State) : Display :=
  { scanStatusText := if s.isScanning then "● Scanning" else "○ Stopped"
    errorText := s.vpsError }

/-- Handler `handleStopVPSScan` of this page: success clears the scanning
flag and the error; failure stores the message and re-renders — unlike the
VPS example page's variant, this catch shows no alert. -/
def handleStopVPSScan (s : State) (r : SdkResult) : State × Effects :=
  match r with
  | .ok _ => ({ s with isScanning := false, vpsError := none }, noEffects)
  | .error e => ({ s with vpsError := some e }, noEffects)

/-- Handler `handleSetRouteFromPosition`, which runs this page's
`createItineraryFromCurrentPosition`: without a position it alerts and
returns; with one it runs the SDK itinerary builder with no surrounding
try/catch, so a throw from the builder propagates out of the click handler —
embedded as the `.error` result of the handler.  `r` is the builder's
outcome; the built itinerary is taken as given because its coordinates come
from an SDK random walk. -/
def handleSetRouteFromPosition (s : State) (r : Except String Itinerary) :
    Except String (State × Effects) :=
  match s.vpsPose.position with
  | none =>
      .ok (s, { noEffects with alerts :=
        ["No VPS position available yet. Please start the VPS source and perform a scan to get a position."] })
  | some _ =>
      match r with
      | .ok it =>
          .ok ({ s with currentItinerary := some it,
                        mapMatchingItinerary := some it }, noEffects)
      | .error e => .error e

end Wemap.MapMatchingVpsPage

namespace Wemap.CombinedGnssPage

/-- Slice of the combined page's state touched by its GNSS start handler and
its route calculation (the map-click slice is `State`). -/
structure RouteState where
  gnssPose : Pose
  gnssRunning : Bool
  gnssError : Option String
  destinationCoords : Option DestCoords
  currentItinerary : Option Itinerary
  mapMatchingItinerary : Option Itinerary
  isCalculatingRoute : Bool
  routeError : Option String
  deriving DecidableEq, Repr

/-- Initial route-state slice. -/
def initRoute : RouteState :=
  ⟨Pose.empty, false, none, none, none, none, false, none⟩

/-- What `updateErrorDisplay` (lines 418-440) renders: the GNSS error block
and the route error block, each shown iff its message is set. -/
structure ErrorDisplay where
  errorText : Option String
  routeErrorText : Option String
  deriving DecidableEq, Repr

/-- The `updateErrorDisplay` render. -/
def updateErrorDisplay (s : RouteState) : ErrorDisplay :=
  ⟨s.gnssError, s.routeError⟩

/-- Handler `handleStartGNSS` (lines 550-573): success marks running and
clears the error; failure stores the message, re-renders, and alerts. -/
def handleStartGNSS (s : RouteState) (r : SdkResult) :
    RouteState × Effects :=
  match r with
  | .ok _ => ({ s with gnssRunning := true, gnssError := none }, noEffects)
  | .error e =>
      ({ s with gnssError := some e },
       { noEffects with
           alerts := ["Failed to start GNSS Location Source: " ++ e] })

/-- The `calculateRoute` of the combined page (lines 188-246): the two guard
alerts, then the directions call with outcome `r`; an empty itinerary list
is thrown as `No route found` and handled by the same catch; the catch
stores the message, alerts, and the finally block resets the calculating
flag and re-renders the error blocks. -/
def calculateRoute (s : RouteState)
    (r : Except String (List Itinerary)) : RouteState × Effects :=
  match s.gnssPose.position with
  | none =>
      (s, { noEffects with alerts :=
        ["No GNSS position available. Please start GNSS Location Source first."] })
  | some p =>
    match s.destinationCoords with
    | none =>
        (s, { noEffects with alerts :=
          ["Please click on the map to set a destination first."] })
    | some dc =>
      let req : (ℚ × ℚ) × (ℚ × ℚ) :=
        ((p.latitude, p.longitude), (dc.lat, dc.lon))
      let s1 := { s with isCalculatingRoute := true, routeError := none }
      match r with
      | .ok its =>
        if its.isEmpty then
          ({ s1 with isCalculatingRoute := false,
                     routeError := some "No route found" },
           { noEffects with
               routeRequests := [req],
               alerts := ["Failed to calculate route: No route found"] })
        else
          ({ s1 with isCalculatingRoute := false,
                     currentItinerary := its.head?,
                     mapMatchingItinerary := its.head? },
           { noEffects with routeRequests := [req] })
      | .error e =>
          ({ s1 with isCalculatingRoute := false, routeError := some e },
           { noEffects with
               routeRequests := [req],
               alerts := ["Failed to calculate route: " ++ e] })

end Wemap.CombinedGnssPage

namespace Wemap.Samples

/-!
Concrete states and values used to evaluate the theorems below on explicit
inputs.
-/

/-- An external info calculator that always reports no navigation info. -/
def getInfoNone : RoutingPage.GetInfo := fun _ _ => none

/-- Routing page right after `Initialize Router` succeeded. -/
def routerReady : RoutingPage.State := { RoutingPage.init with router := true }

/-- Routing page with a directions request in flight. -/
def calculating : RoutingPage.State :=
  { RoutingPage.init with router := true, isCalculating := true }

/-- VPS page with a scan started and its promise still pending. -/
def scanInFlight : VpsPage.State :=
  { VpsPage.init with isScanning := true, scanPending := true, camera := true }

/-- A pose with a Paris position. -/
def parisPose : Pose := ⟨some ⟨4886/100, 235/100, none⟩⟩

/-- An itinerary whose reported distance is zero metres. -/
def zeroDistItinerary : Itinerary :=
  ⟨[], Coordinates.mk2 0 0, Coordinates.mk2 0 0, "WALK", some 0, some 120, []⟩

/-- A short two-point itinerary with distance 1500 m and duration 300 s. -/
def shortItinerary : Itinerary :=
  ⟨[Coordinates.mk2 48 2, Coordinates.mk2 49 3],
   Coordinates.mk2 48 2, Coordinates.mk2 49 3, "WALK",
   some 1500, some 300, []⟩

/-- A loaded map that does not yet hold a route source or layer. -/
def mapBare : RoutingPage.MapW := ⟨true, ["wemap-base"], ["background"]⟩

/-- Routing page that has just received an itinerary, over a bare map. -/
def routeSet : RoutingPage.State :=
  { routerReady with currentItinerary := some shortItinerary,
                     map := some mapBare }

/-- Map-matching page holding a GNSS position. -/
def mmWithPosition : MapMatchingPage.State :=
  { MapMatchingPage.init with gnssPose := parisPose }

/-- Combined page: map loaded, source running, but no position yet. -/
def clickNoPosition : CombinedGnssPage.State :=
  { CombinedGnssPage.init with mapLoaded := true, gnssRunning := true }

/-- Combined page: source running and no position, map not yet loaded. -/
def clickUnloaded : CombinedGnssPage.State :=
  { CombinedGnssPage.init with gnssRunning := true }

/-- Form page with the router initialized. -/
def formReady : RoutingFormPage.State :=
  { RoutingFormPage.init with router := true }

/-- Combined page route slice with a position and a destination set. -/
def combinedRouteReady : CombinedGnssPage.RouteState :=
  { CombinedGnssPage.initRoute with
      gnssPose := parisPose, gnssRunning := true,
      destinationCoords := some ⟨4887/100, 236/100, none⟩ }

/-- Map-matching VPS page holding a VPS position. -/
def mmVpsWithPosition : MapMatchingVpsPage.State :=
  { MapMatchingVpsPage.init with vpsPose := parisPose }

end Wemap.Samples



namespace Wemap.RoutingPage

/-- Shape of `updateMapTestPosition`: it only rewrites the marker flag. -/
theorem updateMapTestPosition_shape (s : State) :
    ∃ b, updateMapTestPosition s = { s with testPositionMarker := b } := by
  unfold updateMapTestPosition
  split
  · split
    · exact ⟨true, rfl⟩
    · exact ⟨false, rfl⟩
  · exact ⟨false, rfl⟩

/-- Shape of `updateNavigationInfo`: it only rewrites the navigation info and
the marker flag. -/
theorem updateNavigationInfo_shape (gi : GetInfo) (s : State) :
    ∃ n b, updateNavigationInfo gi s =
      { s with navigationInfo := n, testPositionMarker := b } := by
  unfold updateNavigationInfo
  split <;> exact ⟨_, _, (updateMapTestPosition_shape _).choose_spec⟩

/-- Shape of `updateMapRoute`: it only rewrites the map, the recorded source
id and the endpoint markers. -/
theorem updateMapRoute_shape (s : State) :
    ∃ mp rid o d, updateMapRoute s =
      { s with map := mp, routeSourceId := rid,
               originMarker := o, destinationMarker := d } := by
  unfold updateMapRoute
  split
  · exact ⟨s.map, s.routeSourceId, s.originMarker, s.destinationMarker, rfl⟩
  · rename_i m _
    split
    · split
      · split
        · exact ⟨_, _, s.originMarker, s.destinationMarker, rfl⟩
        · exact ⟨s.map, s.routeSourceId, s.originMarker, s.destinationMarker,
                 rfl⟩
      · exact ⟨s.map, s.routeSourceId, s.originMarker, s.destinationMarker,
               rfl⟩
    · split
      · exact ⟨s.map, s.routeSourceId, s.originMarker, s.destinationMarker,
               rfl⟩
      · split
        · exact ⟨s.map, s.routeSourceId, s.originMarker, s.destinationMarker,
                 rfl⟩
        · exact ⟨_, _, _, _, rfl⟩

end Wemap.RoutingPage

namespace Wemap.RoutingPage

/-- Refreshing the test-position marker leaves the current itinerary alone. -/
theorem updateMapTestPosition_currentItinerary (s : State) :
    (updateMapTestPosition s).currentItinerary = s.currentItinerary := by
  obtain ⟨b, h⟩ := updateMapTestPosition_shape s
  rw [h]

/-- Refreshing the test-position marker leaves the calculating flag alone. -/
theorem updateMapTestPosition_isCalculating (s : State) :
    (updateMapTestPosition s).isCalculating = s.isCalculating := by
  obtain ⟨b, h⟩ := updateMapTestPosition_shape s
  rw [h]

/-- Refreshing the test-position marker leaves the navigation info alone. -/
theorem updateMapTestPosition_navigationInfo (s : State) :
    (updateMapTestPosition s).navigationInfo = s.navigationInfo := by
  obtain ⟨b, h⟩ := updateMapTestPosition_shape s
  rw [h]

/-- Refreshing the test-position marker leaves the map alone. -/
theorem updateMapTestPosition_map (s : State) :
    (updateMapTestPosition s).map = s.map := by
  obtain ⟨b, h⟩ := updateMapTestPosition_shape s
  rw [h]

/-- Refreshing the test-position marker leaves the source id alone. -/
theorem updateMapTestPosition_routeSourceId (s : State) :
    (updateMapTestPosition s).routeSourceId = s.routeSourceId := by
  obtain ⟨b, h⟩ := updateMapTestPosition_shape s
  rw [h]

/-- Refreshing navigation info leaves the current itinerary alone. -/
theorem updateNavigationInfo_currentItinerary (gi : GetInfo) (s : State) :
    (updateNavigationInfo gi s).currentItinerary = s.currentItinerary := by
  obtain ⟨n, b, h⟩ := updateNavigationInfo_shape gi s
  rw [h]

/-- Refreshing navigation info leaves the calculating flag alone. -/
theorem updateNavigationInfo_isCalculating (gi : GetInfo) (s : State) :
    (updateNavigationInfo gi s).isCalculating = s.isCalculating := by
  obtain ⟨n, b, h⟩ := updateNavigationInfo_shape gi s
  rw [h]

/-- Redrawing the map route leaves the current itinerary alone. -/
theorem updateMapRoute_currentItinerary (s : State) :
    (updateMapRoute s).currentItinerary = s.currentItinerary := by
  obtain ⟨mp, rid, o, d, h⟩ := updateMapRoute_shape s
  rw [h]

/-- Redrawing the map route leaves the calculating flag alone. -/
theorem updateMapRoute_isCalculating (s : State) :
    (updateMapRoute s).isCalculating = s.isCalculating := by
  obtain ⟨mp, rid, o, d, h⟩ := updateMapRoute_shape s
  rw [h]

/-- Redrawing the map route leaves the navigation info alone. -/
theorem updateMapRoute_navigationInfo (s : State) :
    (updateMapRoute s).navigationInfo = s.navigationInfo := by
  obtain ⟨mp, rid, o, d, h⟩ := updateMapRoute_shape s
  rw [h]

/-- Redrawing the map route leaves the route error alone. -/
theorem updateMapRoute_routeError (s : State) :
    (updateMapRoute s).routeError = s.routeError := by
  obtain ⟨mp, rid, o, d, h⟩ := updateMapRoute_shape s
  rw [h]

/-- A settled directions call always ends with the calculating flag reset by
the `finally` block. -/
theorem calcFinish_isCalculating (gi : GetInfo) (s : State)
    (r : Except String (List Itinerary)) :
    (calcFinish gi s r).isCalculating = false := by
  cases r <;> rfl

/-- A successful directions call stores `itineraries[0]` as the current
itinerary. -/
theorem calcFinish_ok_currentItinerary (gi : GetInfo) (s : State)
    (its : List Itinerary) :
    (calcFinish gi s (.ok its)).currentItinerary = its.head? := by
  simp only [calcFinish]
  split <;>
    simp [updateMapRoute_currentItinerary, updateNavigationInfo_currentItinerary]

/-- A failed directions call leaves the current itinerary untouched. -/
theorem calcFinish_error_currentItinerary (gi : GetInfo) (s : State)
    (e : String) :
    (calcFinish gi s (.error e)).currentItinerary = s.currentItinerary := rfl

/-- A failed directions call stores the message as the route error. -/
theorem calcFinish_error_routeError (gi : GetInfo) (s : State) (e : String) :
    (calcFinish gi s (.error e)).routeError = some e := rfl

/-- Clearing the route nulls the current itinerary. -/
theorem handleClearRoute_currentItinerary (s : State) :
    (handleClearRoute s).currentItinerary = none := by
  unfold handleClearRoute
  rw [updateMapTestPosition_currentItinerary, updateMapRoute_currentItinerary]

/-- Clearing the route nulls the navigation info. -/
theorem handleClearRoute_navigationInfo (s : State) :
    (handleClearRoute s).navigationInfo = none := by
  unfold handleClearRoute
  rw [updateMapTestPosition_navigationInfo, updateMapRoute_navigationInfo]

/-- Clearing the route does not touch the calculating flag. -/
theorem handleClearRoute_isCalculating (s : State) :
    (handleClearRoute s).isCalculating = s.isCalculating := by
  unfold handleClearRoute
  rw [updateMapTestPosition_isCalculating, updateMapRoute_isCalculating]

/-- Running an event list and then one more event steps the run's result. -/
theorem run_append_single (gi : GetInfo) (s : State) (es : List Event)
    (e : Event) :
    run gi s (es ++ [e]) = step gi (run gi s es) e := by
  simp [run, List.foldl_append]

end Wemap.RoutingPage

namespace Wemap.MapMatchingPage

/-- Running an operation list and then one more operation steps the result. -/
theorem run_op_append_single (s : State) (ops : List Op) (o : Op) :
    run s (ops ++ [o]) = step (run s ops) o := by
  simp [run, List.foldl_append]

end Wemap.MapMatchingPage

namespace Wemap

/-- Claim C1, counterexample.  The claim says every exception from an SDK
call made by a page controller is surfaced both as inline text and as a
browser alert.  The stop handler of the GNSS page refutes the alert part: a
failing `gnssWifiLocationSource.stop()` stores the message (shown inline by
`updateUI`) but its catch block shows no alert. -/
theorem claim1_counterexample :
    (GnssPage.handleStopGnss GnssPage.init (.error "boom")).1.gnssError
      = some "boom" ∧
    (GnssPage.handleStopGnss GnssPage.init (.error "boom")).2.alerts = [] :=
  ⟨rfl, rfl⟩

/-- Claim C1, amended: every exception thrown by an SDK call is surfaced to
the user, but not uniformly, and in one handler it is not caught at all.
The location-source start handlers, the scan start handler, the VPS example
page's scan stop handler, and the combined page's route calculation store
the message as a string in page state, render it as inline text, and show a
browser alert.  The location-source stop handlers, the routing pages' route
calculations, and the map-matching VPS page's scan stop handler store and
render the message inline but show no alert.  The map-matching page's
itinerary creation only alerts, storing nothing in page state and rendering
nothing inline.  The map-matching VPS page's itinerary creation has no
try/catch, so a throw from the SDK itinerary builder propagates out of the
click handler uncaught.  All other modelled handlers are total functions:
they never rethrow. -/
theorem claim1_amended :
    (∀ (s : GnssPage.State) (e : String),
        (GnssPage.handleStartGnss s (.error e)).1.gnssError = some e ∧
        (GnssPage.updateUI (GnssPage.handleStartGnss s (.error e)).1).errorText
          = some e ∧
        (GnssPage.handleStartGnss s (.error e)).2.alerts
          = ["Failed to start GnssWifiLocationSource: " ++ e]) ∧
    (∀ (s : MapMatchingPage.State) (e : String),
        (MapMatchingPage.handleStartGNSS s (.error e)).1.gnssError = some e ∧
        (MapMatchingPage.updateUI
            (MapMatchingPage.handleStartGNSS s (.error e)).1).errorText
          = some e ∧
        (MapMatchingPage.handleStartGNSS s (.error e)).2.alerts
          = ["Failed to start GnssWifiLocationSource: " ++ e]) ∧
    (∀ (s : VpsPage.State) (e : String),
        (VpsPage.handleStartVPS s (.error e)).1.vpsError = some e ∧
        (VpsPage.updateUI (VpsPage.handleStartVPS s (.error e)).1).errorText
          = some e ∧
        (VpsPage.handleStartVPS s (.error e)).2.alerts
          = ["Failed to start VPSLocationSource: " ++ e]) ∧
    (∀ (s : CombinedGnssPage.RouteState) (e : String),
        (CombinedGnssPage.handleStartGNSS s (.error e)).1.gnssError
          = some e ∧
        (CombinedGnssPage.updateErrorDisplay
            (CombinedGnssPage.handleStartGNSS s (.error e)).1).errorText
          = some e ∧
        (CombinedGnssPage.handleStartGNSS s (.error e)).2.alerts
          = ["Failed to start GNSS Location Source: " ++ e]) ∧
    (∀ (s : GnssPage.State) (e : String),
        (GnssPage.handleStopGnss s (.error e)).1.gnssError = some e ∧
        (GnssPage.updateUI (GnssPage.handleStopGnss s (.error e)).1).errorText
          = some e ∧
        (GnssPage.handleStopGnss s (.error e)).2.alerts = []) ∧
    (∀ (s : MapMatchingPage.State) (e : String),
        (MapMatchingPage.handleStopGNSS s (.error e)).1.gnssError = some e ∧
        (MapMatchingPage.updateUI
            (MapMatchingPage.handleStopGNSS s (.error e)).1).errorText
          = some e ∧
        (MapMatchingPage.handleStopGNSS s (.error e)).2.alerts = []) ∧
    (∀ (s : VpsPage.State) (e : String),
        (VpsPage.handleStopVPS s (.error e)).1.vpsError = some e ∧
        (VpsPage.updateUI (VpsPage.handleStopVPS s (.error e)).1).errorText
          = some e ∧
        (VpsPage.handleStopVPS s (.error e)).2.alerts = []) ∧
    (∀ (s : VpsPage.State) (e : String),
        (VpsPage.handleStartVPSScanError s e).1.vpsError = some e ∧
        (VpsPage.updateUI (VpsPage.handleStartVPSScanError s e).1).errorText
          = some e ∧
        (VpsPage.handleStartVPSScanError s e).2.alerts
          = ["Failed to start VPSLocationSource scan: " ++ e]) ∧
    (∀ (s : VpsPage.State) (e : String),
        (VpsPage.handleStopVPSScan s (.error e)).1.vpsError = some e ∧
        (VpsPage.updateUI (VpsPage.handleStopVPSScan s (.error e)).1).errorText
          = some e ∧
        (VpsPage.handleStopVPSScan s (.error e)).2.alerts
          = ["Failed to stop VPSLocationSource scan: " ++ e]) ∧
    (∀ (s : MapMatchingVpsPage.State) (e : String),
        (MapMatchingVpsPage.handleStopVPSScan s (.error e)).1.vpsError
          = some e ∧
        (MapMatchingVpsPage.updateUI
            (MapMatchingVpsPage.handleStopVPSScan s (.error e)).1).errorText
          = some e ∧
        (MapMatchingVpsPage.handleStopVPSScan s (.error e)).2.alerts = []) ∧
    (∀ (gi : RoutingPage.GetInfo) (s : RoutingPage.State) (f t : ℚ × ℚ)
        (e : String), s.router = true →
        (RoutingPage.calculateRoute gi s f t (.error e)).1.routeError
          = some e ∧
        (RoutingPage.updateUI
            (RoutingPage.calculateRoute gi s f t (.error e)).1).errorText
          = some e ∧
        (RoutingPage.calculateRoute gi s f t (.error e)).2.alerts = []) ∧
    (∀ (s : RoutingFormPage.State) (f t : ℚ × ℚ) (e : String),
        s.router = true →
        (RoutingFormPage.calculateRoute s f t (.error e)).1.routeError
          = some e ∧
        (RoutingFormPage.updateUI
            (RoutingFormPage.calculateRoute s f t (.error e)).1).errorText
          = some e ∧
        (RoutingFormPage.calculateRoute s f t (.error e)).2.alerts = []) ∧
    (∀ (s : CombinedGnssPage.RouteState) (p : Position)
        (dc : CombinedGnssPage.DestCoords) (e : String),
        s.gnssPose.position = some p → s.destinationCoords = some dc →
        (CombinedGnssPage.calculateRoute s (.error e)).1.routeError
          = some e ∧
        (CombinedGnssPage.updateErrorDisplay
            (CombinedGnssPage.calculateRoute s (.error e)).1).routeErrorText
          = some e ∧
        (CombinedGnssPage.calculateRoute s (.error e)).2.alerts
          = ["Failed to calculate route: " ++ e]) ∧
    (∀ (s : MapMatchingPage.State) (f t : ℚ × ℚ) (e : String),
        (MapMatchingPage.createAndSetItineraryTry s f t (.error e)).1 = s ∧
        (MapMatchingPage.createAndSetItineraryTry s f t (.error e)).2.alerts
          = ["Failed to create itinerary: " ++ e]) ∧
    (∀ (s : MapMatchingVpsPage.State) (p : Position) (e : String),
        s.vpsPose.position = some p →
        MapMatchingVpsPage.handleSetRouteFromPosition s (.error e)
          = .error e) := by
  refine ⟨fun s e => ⟨rfl, rfl, rfl⟩, fun s e => ⟨rfl, rfl, rfl⟩,
          fun s e => ⟨rfl, rfl, rfl⟩, fun s e => ⟨rfl, rfl, rfl⟩,
          fun s e => ⟨rfl, rfl, rfl⟩, fun s e => ⟨rfl, rfl, rfl⟩,
          fun s e => ⟨rfl, rfl, rfl⟩, fun s e => ⟨rfl, rfl, rfl⟩,
          fun s e => ⟨rfl, rfl, rfl⟩, fun s e => ⟨rfl, rfl, rfl⟩,
          ?_, ?_, ?_, fun s f t e => ⟨rfl, rfl⟩, ?_⟩
  · intro gi s f t e hr
    simp [RoutingPage.calculateRoute, RoutingPage.calcStart,
          RoutingPage.calcFinish, RoutingPage.updateUI, hr, noEffects]
  · intro s f t e hr
    simp [RoutingFormPage.calculateRoute, RoutingFormPage.updateUI, hr,
          noEffects]
  · intro s p dc e hp hdc
    refine ⟨?_, ?_, ?_⟩ <;>
      (simp only [CombinedGnssPage.calculateRoute, hp, hdc]; try rfl)
  · intro s p e hp
    simp only [MapMatchingVpsPage.handleSetRouteFromPosition, hp]

/-- Witness for the amended claim C1 at concrete failing calls: routing page
route calculation (error stored, no alert), combined page route calculation
(error stored and alerted), and the uncaught itinerary-creation throw of the
map-matching VPS page. -/
theorem claim1_amended_witness :
    (RoutingPage.calculateRoute Samples.getInfoNone Samples.routerReady
        (0, 0) (1, 1) (.error "network down")).1.routeError
      = some "network down" ∧
    (RoutingPage.calculateRoute Samples.getInfoNone Samples.routerReady
        (0, 0) (1, 1) (.error "network down")).2.alerts = [] ∧
    (CombinedGnssPage.calculateRoute Samples.combinedRouteReady
        (.error "network down")).2.alerts
      = ["Failed to calculate route: " ++ "network down"] ∧
    MapMatchingVpsPage.handleSetRouteFromPosition Samples.mmVpsWithPosition
        (.error "builder failed") = .error "builder failed" := by
  obtain ⟨hA1, hA2, hA3, hA4, hB1, hB2, hB3, hC1, hC2, hC3, hD1, hD2, hD3,
          hE1, hE2⟩ := claim1_amended
  have h1 := hD1 Samples.getInfoNone Samples.routerReady (0, 0) (1, 1)
      "network down" rfl
  have h3 := hD3 Samples.combinedRouteReady ⟨4886/100, 235/100, none⟩
      ⟨4887/100, 236/100, none⟩ "network down" rfl rfl
  exact ⟨h1.1, h1.2.2, h3.2.2,
         hE2 Samples.mmVpsWithPosition ⟨4886/100, 235/100, none⟩
           "builder failed" rfl⟩

/-- Claim C2: each page keeps at most one current itinerary and one current
pose (single optional fields of the state), and assigning a new value fully
replaces the old one: after any prior operation sequence, a pose update
leaves exactly the delivered pose, a successful calculation leaves exactly
`itineraries[0]`, and a clear leaves none — independent of the history. -/
theorem claim2_single_current_replacement :
    (∀ (s : MapMatchingPage.State) (ops : List MapMatchingPage.Op) (p : Pose),
        (MapMatchingPage.run s (ops ++ [.poseUpdate p])).gnssPose = p) ∧
    (∀ (gi : RoutingPage.GetInfo) (s : RoutingPage.State)
        (es : List RoutingPage.Event) (its : List Itinerary),
        (RoutingPage.run gi s (es ++ [.calcDone (.ok its)])).currentItinerary
          = its.head?) ∧
    (∀ (gi : RoutingPage.GetInfo) (s : RoutingPage.State)
        (es : List RoutingPage.Event),
        (RoutingPage.run gi s (es ++ [.clearRoute])).currentItinerary
          = none) := by
  refine ⟨?_, ?_, ?_⟩
  · intro s ops p
    rw [MapMatchingPage.run_op_append_single]
    rfl
  · intro gi s es its
    rw [RoutingPage.run_append_single]
    exact RoutingPage.calcFinish_ok_currentItinerary gi _ its
  · intro gi s es
    rw [RoutingPage.run_append_single]
    exact RoutingPage.handleClearRoute_currentItinerary _

/-- Claim C3, counterexample.  The claim says an in-flight scan cannot be
aborted and that no handler invocation before its completion updates page
state.  On the VPS page, starting a scan leaves its promise pending with the
scanning flag set; invoking `handleStopVPSScan` before the scan settles
clears the scanning flag (and calls `stopScan`) while the scan promise is
still pending. -/
theorem claim3_counterexample :
    (VpsPage.run VpsPage.init [.startScanBegin]).isScanning = true ∧
    (VpsPage.run VpsPage.init [.startScanBegin]).scanPending = true ∧
    (VpsPage.run VpsPage.init
        [.startScanBegin, .stopScan (.ok ())]).isScanning = false ∧
    (VpsPage.run VpsPage.init
        [.startScanBegin, .stopScan (.ok ())]).scanPending = true :=
  ⟨rfl, rfl, rfl, rfl⟩

/-- Claim C3, amended: a route calculation in flight cannot be aborted — on
the routing page no event other than the calculation's own completion resets
the calculating flag — but a VPS scan can: `handleStopVPSScan` clears the
scanning flag (after calling `stopScan`) even while the scan promise is
still pending. -/
theorem claim3_amended :
    (∀ (gi : RoutingPage.GetInfo) (s : RoutingPage.State)
        (e : RoutingPage.Event), s.isCalculating = true →
        (∀ r, e ≠ .calcDone r) →
        (RoutingPage.step gi s e).isCalculating = true) ∧
    (∀ s : VpsPage.State, s.scanPending = true →
        (VpsPage.step s (.stopScan (.ok ()))).isScanning = false ∧
        (VpsPage.step s (.stopScan (.ok ()))).scanPending = true) := by
  constructor
  · intro gi s e hc hne
    cases e with
    | calcBegin f t =>
        simp only [RoutingPage.step, RoutingPage.calcStart]
        split
        · exact hc
        · rfl
    | calcDone r => exact absurd rfl (hne r)
    | clearRoute =>
        show (RoutingPage.handleClearRoute s).isCalculating = true
        rw [RoutingPage.handleClearRoute_isCalculating]
        exact hc
    | setTestPosition p =>
        show (RoutingPage.updateNavigationInfo gi
            { s with testPosition := some p }).isCalculating = true
        rw [RoutingPage.updateNavigationInfo_isCalculating]
        exact hc
    | mapSetOrigin p => exact hc
    | mapSetDestination p => exact hc
  · intro s hs
    exact ⟨rfl, hs⟩

/-- Witness for the amended claim C3: clearing the route while a calculation
is in flight keeps the flag, and the stop-scan handler stops a pending scan. -/
theorem claim3_amended_witness :
    (RoutingPage.step Samples.getInfoNone Samples.calculating
        .clearRoute).isCalculating = true ∧
    (VpsPage.step Samples.scanInFlight (.stopScan (.ok ()))).isScanning
      = false := by
  constructor
  · exact claim3_amended.1 Samples.getInfoNone Samples.calculating .clearRoute
      rfl (fun r h => RoutingPage.Event.noConfusion h)
  · exact (claim3_amended.2 Samples.scanInFlight rfl).1

/-- Claim C4: when any of the four route-form inputs parses to `NaN`
(embedded `none`), the handler alerts `Please enter valid coordinates`, makes
no directions request, and leaves the page state untouched. -/
theorem claim4_nan_blocks_route :
    ∀ (s : RoutingFormPage.State) (a b c d : Option ℚ)
      (r : Except String (List Itinerary)),
      a = none ∨ b = none ∨ c = none ∨ d = none →
      (RoutingFormPage.handleCalculateRoute s a b c d r).1 = s ∧
      (RoutingFormPage.handleCalculateRoute s a b c d r).2.alerts
        = ["Please enter valid coordinates"] ∧
      (RoutingFormPage.handleCalculateRoute s a b c d r).2.routeRequests
        = [] := by
  intro s a b c d r h
  rcases a with _ | av <;> rcases b with _ | bv <;> rcases c with _ | cv <;>
    rcases d with _ | dv <;>
    simp_all [RoutingFormPage.handleCalculateRoute, noEffects]

/-- Witness for claim C4 with a non-numeric from-latitude. -/
theorem claim4_witness :
    (RoutingFormPage.handleCalculateRoute Samples.formReady none (some 2)
        (some 48) (some 2) (.ok [])).1 = Samples.formReady ∧
    (RoutingFormPage.handleCalculateRoute Samples.formReady none (some 2)
        (some 48) (some 2) (.ok [])).2.alerts
      = ["Please enter valid coordinates"] := by
  have h := claim4_nan_blocks_route Samples.formReady none (some 2) (some 48)
      (some 2) (.ok []) (Or.inl rfl)
  exact ⟨h.1, h.2.1⟩

end Wemap

namespace Wemap

/-- Claim C5, counterexample.  The claim says the rendered distance always
equals `distance / 1000` to two decimals with unit km.  The renderer guards
on JavaScript truthiness, so an itinerary whose reported distance is the
number `0` renders `N/A` rather than `0.00 km`. -/
theorem claim5_counterexample :
    RoutingPage.renderItineraryInfo (some Samples.zeroDistItinerary)
      = .info ⟨.na, .min (jsRound (120 / 60)), 0⟩ ∧
    RoutingPage.DistText.na ≠ .km (toFixed2 (0 / 1000)) := by
  refine ⟨rfl, fun h => RoutingPage.DistText.noConfusion h⟩

/-- Claim C5, amended: for an itinerary whose reported distance and duration
are present and nonzero (truthy), the rendered route information shows
`(distance / 1000).toFixed(2)` km and `Math.round(duration / 60)` min; a
missing or zero value renders `N/A` instead. -/
theorem claim5_amended :
    ∀ (it : Itinerary) (d t : ℚ),
      it.distance = some d → d ≠ 0 → it.duration = some t → t ≠ 0 →
      RoutingPage.renderItineraryInfo (some it)
        = .info ⟨.km (toFixed2 (d / 1000)), .min (jsRound (t / 60)),
                 it.legs.length⟩ := by
  intro it d t hd hdn ht htn
  simp [RoutingPage.renderItineraryInfo, hd, ht, hdn, htn]

/-- Witness for the amended claim C5 on a 1500 m, 300 s itinerary. -/
theorem claim5_amended_witness :
    RoutingPage.renderItineraryInfo (some Samples.shortItinerary)
      = .info ⟨.km (toFixed2 (1500 / 1000)), .min (jsRound (300 / 60)), 0⟩ :=
  claim5_amended Samples.shortItinerary 1500 300 rfl (by decide) rfl
    (by decide)

/-- Claim C7, counterexample.  The claim says every map click without a
position yet shows an alert.  A click received before the map has finished
loading is dropped by the `map.loaded()` guard with only a console warning:
no alert is shown (the destination stays unset either way). -/
theorem claim7_counterexample :
    Samples.clickUnloaded.gnssPose.position = none ∧
    (CombinedGnssPage.mapClick Samples.clickUnloaded (2353/1000) (4886/100)
        none).2.alerts = [] ∧
    (CombinedGnssPage.mapClick Samples.clickUnloaded (2353/1000) (4886/100)
        none).1.destinationCoords = none :=
  ⟨rfl, rfl, rfl⟩

/-- Claim C7, amended: a map click while the location source has produced no
position never calls `setDestination` and leaves the destination unchanged;
when the map is loaded the click also shows an alert, but a click before the
map finishes loading is ignored silently. -/
theorem claim7_amended :
    ∀ (s : CombinedGnssPage.State) (lng lat : ℚ) (lv : Option ℤ),
      s.gnssPose.position = none →
      (CombinedGnssPage.mapClick s lng lat lv).2.setDestinationCalls = [] ∧
      (CombinedGnssPage.mapClick s lng lat lv).1.destinationCoords
        = s.destinationCoords ∧
      (s.mapLoaded = true →
        (CombinedGnssPage.mapClick s lng lat lv).2.alerts ≠ []) := by
  intro s lng lat lv hp
  by_cases hm : s.mapLoaded <;> by_cases hg : s.gnssRunning <;>
    simp [CombinedGnssPage.mapClick, CombinedGnssPage.setDestination, hp, hm,
          hg, noEffects]

/-- Witness for the amended claim C7: a positionless click on a loaded map. -/
theorem claim7_amended_witness :
    (CombinedGnssPage.mapClick Samples.clickNoPosition (2353/1000) (4886/100)
        none).2.setDestinationCalls = [] ∧
    (CombinedGnssPage.mapClick Samples.clickNoPosition (2353/1000) (4886/100)
        none).2.alerts ≠ [] := by
  have h := claim7_amended Samples.clickNoPosition (2353/1000) (4886/100)
      none rfl
  exact ⟨h.1, h.2.2 rfl⟩

/-- Claim C8: starting the GNSS source and then stopping it (stop call
succeeding) leaves the stopped display state: the running flag is false, the
status text is the stopped indicator, the stop control is disabled and the
start control enabled, from any prior page state. -/
theorem claim8_start_stop_stopped_display :
    ∀ s : GnssPage.State,
      (GnssPage.handleStopGnss (GnssPage.handleStartGnss s (.ok ())).1
          (.ok ())).1.gnssRunning = false ∧
      GnssPage.updateUI (GnssPage.handleStopGnss
          (GnssPage.handleStartGnss s (.ok ())).1 (.ok ())).1
        = { statusText := "○ Stopped", errorText := none,
            startDisabled := false, stopDisabled := true } := by
  intro s
  exact ⟨rfl, rfl⟩

/-- Claim C9: on the routing page, a failing directions call leaves the
previously held itinerary untouched, stores the message as the route error,
and the `finally` block resets the calculating flag; only a successful call
replaces the current itinerary (with `itineraries[0]`). -/
theorem claim9_error_keeps_itinerary :
    ∀ (gi : RoutingPage.GetInfo) (s : RoutingPage.State) (f t : ℚ × ℚ)
      (e : String), s.router = true →
      (RoutingPage.calculateRoute gi s f t (.error e)).1.currentItinerary
        = s.currentItinerary ∧
      (RoutingPage.calculateRoute gi s f t (.error e)).1.routeError
        = some e ∧
      (RoutingPage.calculateRoute gi s f t (.error e)).1.isCalculating
        = false ∧
      (∀ its,
        (RoutingPage.calculateRoute gi s f t (.ok its)).1.currentItinerary
          = its.head?) := by
  intro gi s f t e hr
  refine ⟨?_, ?_, ?_, fun its => ?_⟩ <;>
    simp [RoutingPage.calculateRoute, RoutingPage.calcStart, hr,
          RoutingPage.calcFinish_ok_currentItinerary,
          RoutingPage.calcFinish_error_currentItinerary,
          RoutingPage.calcFinish_error_routeError,
          RoutingPage.calcFinish_isCalculating]

/-- Witness for claim C9: a failing call on a page already showing a route. -/
theorem claim9_witness :
    (RoutingPage.calculateRoute Samples.getInfoNone Samples.routeSet (0, 0)
        (1, 1) (.error "boom")).1.currentItinerary
      = some Samples.shortItinerary ∧
    (RoutingPage.calculateRoute Samples.getInfoNone Samples.routeSet (0, 0)
        (1, 1) (.error "boom")).1.isCalculating = false := by
  have h := claim9_error_keeps_itinerary Samples.getInfoNone Samples.routeSet
      (0, 0) (1, 1) "boom" rfl
  exact ⟨h.1, h.2.2.1⟩

/-- Claim C10: creating an itinerary from the current position builds the
ordered five-coordinate list starting at `(lat, lon)` and ending at
`(lat + 0.0045, lon + 0.0045 / cos(lat * π / 180))` (the evaluated cosine is
passed as `cosLat`, nonzero for any real latitude), constructs the itinerary
from it with mode `WALK` and registers it as the active map-matching
itinerary; without a position it alerts and changes nothing. -/
theorem claim10_itinerary_from_current_position :
    ∀ (s : MapMatchingPage.State) (cosLat : ℚ),
      (∀ p : Position, s.gnssPose.position = some p → cosLat ≠ 0 →
        ∃ it : Itinerary,
          (MapMatchingPage.createItineraryFromCurrentPosition cosLat
              s).1.currentItinerary = some it ∧
          (MapMatchingPage.createItineraryFromCurrentPosition cosLat
              s).1.mapMatchingItinerary = some it ∧
          it.coords.length = 5 ∧
          it.coords.head? = some (Coordinates.mk2 p.latitude p.longitude) ∧
          it.coords.getLast? = some (Coordinates.mk2 (p.latitude + 45/10000)
            (p.longitude + (45/10000) / cosLat)) ∧
          it.mode = "WALK") ∧
      (s.gnssPose.position = none →
        (MapMatchingPage.createItineraryFromCurrentPosition cosLat s).1
          = s ∧
        (MapMatchingPage.createItineraryFromCurrentPosition cosLat
            s).2.alerts
          = ["No GPS position available yet. Please start the GNSS source and wait for a position update."]) := by
  intro s cosLat
  constructor
  · intro p hp hcz
    simp only [MapMatchingPage.createItineraryFromCurrentPosition, hp]
    exact ⟨_, rfl, rfl, rfl, rfl, rfl, rfl⟩
  · intro hn
    simp [MapMatchingPage.createItineraryFromCurrentPosition, hn]

/-- Witness for claim C10 at a Paris position with cosine value 1. -/
theorem claim10_witness :
    ∃ it : Itinerary,
      (MapMatchingPage.createItineraryFromCurrentPosition 1
          Samples.mmWithPosition).1.mapMatchingItinerary = some it ∧
      it.coords.length = 5 ∧ it.mode = "WALK" := by
  obtain ⟨it, h1, h2, h3, h4, h5, h6⟩ :=
    (claim10_itinerary_from_current_position Samples.mmWithPosition 1).1
      ⟨4886/100, 235/100, none⟩ rfl (by decide)
  exact ⟨it, h2, h3, h6⟩

end Wemap

namespace Wemap

/-- Claim C6: after an itinerary has been set — redrawing the route onto a
loaded map that held no route yet adds the `route-source` source and the
`route` layer — invoking the clear handler removes both (the map returns
exactly to its pre-route contents, which contain neither id), nulls the
recorded source id, leaves no current itinerary, and the navigation-info
display renders its empty placeholder. -/
theorem claim6_clear_removes_route :
    ∀ (s : RoutingPage.State) (m : RoutingPage.MapW) (it : Itinerary),
      s.map = some m → m.loaded = true → s.currentItinerary = some it →
      it.coords ≠ [] → s.routeSourceId = none →
      m.sources.contains "route-source" = false →
      m.layers.contains "route" = false →
      (RoutingPage.updateMapRoute s).map
        = some { m with sources := "route-source" :: m.sources,
                        layers := "route" :: m.layers } ∧
      (RoutingPage.handleClearRoute (RoutingPage.updateMapRoute s)).map
        = some m ∧
      m.sources.contains "route-source" = false ∧
      m.layers.contains "route" = false ∧
      (RoutingPage.handleClearRoute
          (RoutingPage.updateMapRoute s)).routeSourceId = none ∧
      RoutingPage.renderNavigationInfo
          (RoutingPage.handleClearRoute (RoutingPage.updateMapRoute s))
        = .placeholder ∧
      (RoutingPage.handleClearRoute
          (RoutingPage.updateMapRoute s)).currentItinerary = none := by
  intro s m it hm hl hc hcne hrid hsrc hlay
  have hums : RoutingPage.updateMapRoute s
      = { s with
          map := some { m with sources := "route-source" :: m.sources,
                               layers := "route" :: m.layers },
          routeSourceId := some "route-source",
          originMarker := true, destinationMarker := true } := by
    simp [RoutingPage.updateMapRoute, hm, hl, hc, hrid, hcne]
  have hclr : RoutingPage.handleClearRoute
      { s with
        map := some { m with sources := "route-source" :: m.sources,
                             layers := "route" :: m.layers },
        routeSourceId := some "route-source",
        originMarker := true, destinationMarker := true }
      = { s with currentItinerary := none, testPosition := none,
                 navigationInfo := none, routeError := none,
                 originPosition := none, destinationPosition := none,
                 itineraryInfoManager := none, originMarker := false,
                 destinationMarker := false, testPositionMarker := false,
                 map := some m, routeSourceId := none } := by
    unfold RoutingPage.handleClearRoute RoutingPage.updateMapRoute
      RoutingPage.updateMapTestPosition RoutingPage.MapW.removeRoute
    simp
  rw [hums, hclr]
  exact ⟨rfl, rfl, hsrc, hlay, rfl, rfl, rfl⟩

/-- Witness for claim C6: setting then clearing the short itinerary over the
bare loaded map restores the bare map and the navigation placeholder. -/
theorem claim6_witness :
    (RoutingPage.handleClearRoute
        (RoutingPage.updateMapRoute Samples.routeSet)).map
      = some Samples.mapBare ∧
    RoutingPage.renderNavigationInfo
        (RoutingPage.handleClearRoute
          (RoutingPage.updateMapRoute Samples.routeSet))
      = .placeholder := by
  have h := claim6_clear_removes_route Samples.routeSet Samples.mapBare
      Samples.shortItinerary rfl rfl rfl (by simp [Samples.shortItinerary])
      rfl (by decide) (by decide)
  exact ⟨h.2.1, h.2.2.2.2.2.1⟩

end Wemap
